import Mathlib

/-!
Verification of the bronze-ingestion core of the Container Offices ETL
repository.  The Python modules `etl/utils.py`, `etl/config.py`,
`etl/ingest_excel.py` and `etl/quality.py` are shallowly embedded below:
pure helpers become Lean functions over a small model of Python values,
the ingestion driver `main` becomes an explicit state-passing function,
and the Pandera schemas become decidable row predicates.
-/

set_option autoImplicit false

/-! ### A small model of Python scalar values

Cells and tenant/suite fields in the source are dynamically typed: they can
be `None`, the float `nan` (pandas' missing marker), a string, or a number.
-/

inductive PyVal : Type where
  | vNone : PyVal
  | vNan : PyVal
  | vStr : String → PyVal
  | vNum : ℚ → PyVal
deriving DecidableEq, Repr

/-- Models `pd.isna`: true exactly on `None` and `nan`. -/
def pdIsna : PyVal → Bool
  | .vNone => true
  | .vNan => true
  | _ => false

/-- Models Python truthiness (`bool(v)`): `None` and `""` and `0` are falsy;
`nan` is truthy in Python. -/
def pyFalsy : PyVal → Bool
  | .vNone => true
  | .vNan => false
  | .vStr s => s == ""
  | .vNum q => q == 0

/-- Models `str(v)` / f-string formatting of a value.  Numeric formatting
uses the rational's `toString`; no theorem below depends on the exact
digits a number renders to. -/
def pyStr : PyVal → String
  | .vNone => "None"
  | .vNan => "nan"
  | .vStr s => s
  | .vNum q => toString q

/-- Models `str.lower()` (the source only ever lowercases ASCII data). -/
def pyLower (s : String) : String :=
  ⟨s.data.map Char.toLower⟩

/-- Models `str.upper()` for the ASCII range. -/
def pyUpper (s : String) : String :=
  ⟨s.data.map Char.toUpper⟩

/-- Whitespace characters removed by Python's `str.strip()`. -/
def pyIsSpace (c : Char) : Bool :=
  c == ' ' || c == '\t' || c == '\n' || c == '\r' || c == '\x0b' || c == '\x0c'

/-- Models `str.strip()` on the underlying character list. -/
def pyStripList (l : List Char) : List Char :=
  (((l.dropWhile pyIsSpace).reverse.dropWhile pyIsSpace)).reverse

/-- Models `str.strip()`. -/
def pyStrip (s : String) : String :=
  ⟨pyStripList s.data⟩

/-- Is `p` a literal prefix of `s`? (character lists) -/
def listIsPrefOf : List Char → List Char → Bool
  | [], _ => true
  | _ :: _, [] => false
  | a :: p, b :: s => a == b && listIsPrefOf p s

/-- Does `s` contain `p` as a contiguous substring?  Models Python's
`p in s` on strings (the empty string is contained in everything). -/
def listHasSub : List Char → List Char → Bool
  | s, p =>
    if listIsPrefOf p s then true
    else
      match s with
      | [] => false
      | _ :: s' => listHasSub s' p

/-- Models the Python expression `needle in hay` for strings. -/
def pyContains (hay needle : String) : Bool :=
  listHasSub hay.data needle.data

/-! ### Configuration (`etl/config.py`) -/

/-- Sheet-name patterns for the dashboard source (config.py line 25). -/
def DASHBOARD_SHEET_PATTERNS : List String := ["dashboard", "2025", "2026"]

/-- Sheet-name patterns for the lease/rate source (config.py line 26). -/
def LEASE_RATE_SHEET_PATTERNS : List String := ["lease", "rate"]

/-- Owner-use phrases, including the hardcoded owner suite id
(config.py lines 81-86). -/
def OWN_USE_PATTERNS : List String :=
  ["black label", "owner use", "uso propio", "101b"]

/-- Vacancy phrases (config.py lines 89-94). -/
def VACANCY_PATTERNS : List String :=
  ["vacante", "vacant", "disponible", "available"]

/-! ### Text classifiers (`etl/utils.py`) -/

/-- Embeds `utils.is_vacant` (utils.py lines 80-95): returns true on
null/empty (falsy) tenant values, otherwise lowercases, strips, and tests
each configured phrase for substring containment. -/
def is_vacant (tenant_name : PyVal) (vacancy_patterns : List String) : Bool :=
  if pdIsna tenant_name || pyFalsy tenant_name then true
  else
    let tenant_lower := pyStrip (pyLower (pyStr tenant_name))
    vacancy_patterns.any (fun pat => pyContains tenant_lower pat)

/-- Embeds `utils.is_own_use` (utils.py lines 98-111): the f-string
concatenation of tenant and suite is lowercased, stripped and tested
against each configured phrase. -/
def is_own_use (tenant_name suite_id : PyVal) (own_use_patterns : List String) : Bool :=
  let combined := pyStrip (pyLower (pyStr tenant_name ++ " " ++ pyStr suite_id))
  own_use_patterns.any (fun pat => pyContains combined pat)

/-- Embeds `utils.extract_building` (utils.py lines 114-129): the first
occurrence of the character `A` or `B` in the uppercased suite id, as a
one-character string; `none` on missing input or when neither appears. -/
def extract_building (suite_id : PyVal) : Option String :=
  if pdIsna suite_id then none
  else
    match (pyUpper (pyStr suite_id)).data.find? (fun c => c == 'A' || c == 'B') with
    | some c => some (String.mk [c])
    | none => none

/-! ### Sheet locator (`etl/utils.py` lines 42-64) -/

/-- Embeds `utils.pick_sheet`: the outer loop over `patterns` becomes
recursion, the inner loop over the (lowercased) sheet names becomes
`List.find?`; the original (non-lowercased) sheet name is returned. -/
def pick_sheet (sheetnames : List String) (patterns : List String) : Option String :=
  match patterns with
  | [] => none
  | p :: ps =>
    match sheetnames.find? (fun s => pyContains (pyLower s) (pyLower p)) with
    | some s => some s
    | none => pick_sheet sheetnames ps

/-! ### Claims about the text classifiers -/

/-- For a nonempty tenant string, `is_vacant` reduces to the configured
phrase scan over the lowercased, stripped text. -/
theorem is_vacant_str_eq (s : String) (hs : s ≠ "") (pats : List String) :
    is_vacant (.vStr s) pats =
      pats.any (fun pat => pyContains (pyStrip (pyLower s)) pat) := by
  have hb : (s == "") = false := beq_eq_false_iff_ne.mpr hs
  simp [is_vacant, pdIsna, pyFalsy, pyStr, hb]

/-- Claim C8: a lease row with suite id "101B" and empty tenant text is
classified as own-use via the hardcoded owner-suite pattern, even though
no vacancy phrase matches the empty tenant text. -/
theorem own_use_owner_suite_101B :
    is_own_use (.vStr "") (.vStr "101B") OWN_USE_PATTERNS = true
    ∧ is_vacant (.vStr "") VACANCY_PATTERNS = true
    ∧ VACANCY_PATTERNS.any
        (fun pat => pyContains (pyStrip (pyLower "")) pat) = false := by
  decide

/-- Claim C9: `is_vacant` and `is_own_use` are total over all modelled
Python inputs (null, nan, strings, numbers): each always returns a
boolean; on null and empty tenant input `is_vacant` returns `true`. -/
theorem classifiers_total :
    (∀ (t : PyVal) (pats : List String),
      is_vacant t pats = true ∨ is_vacant t pats = false)
    ∧ (∀ (t s : PyVal) (pats : List String),
      is_own_use t s pats = true ∨ is_own_use t s pats = false)
    ∧ (∀ pats : List String, is_vacant .vNone pats = true)
    ∧ (∀ pats : List String, is_vacant (.vStr "") pats = true) := by
  refine ⟨fun t pats => ?_, fun t s pats => ?_, fun _ => rfl, fun _ => rfl⟩
  · rcases Bool.eq_false_or_eq_true (is_vacant t pats) with h | h
    · exact Or.inl h
    · exact Or.inr h
  · rcases Bool.eq_false_or_eq_true (is_own_use t s pats) with h | h
    · exact Or.inl h
    · exact Or.inr h


/-- Claim C10: `is_vacant` is true on null and on the empty string, but a
nonempty tenant string is scanned (after lowercasing and stripping) for
the configured phrases, so a whitespace-only tenant — whose stripped text
is empty and matches no configured nonempty phrase — is not vacant. -/
theorem whitespace_tenant_not_vacant :
    (∀ pats : List String, is_vacant .vNone pats = true)
    ∧ (∀ pats : List String, is_vacant (.vStr "") pats = true)
    ∧ (∀ s : String, s ≠ "" →
        is_vacant (.vStr s) VACANCY_PATTERNS =
          VACANCY_PATTERNS.any (fun pat => pyContains (pyStrip (pyLower s)) pat))
    ∧ (∀ s : String, s ≠ "" → pyStrip (pyLower s) = "" →
        is_vacant (.vStr s) VACANCY_PATTERNS = false) := by
  refine ⟨fun _ => rfl, fun _ => rfl, fun s hs => is_vacant_str_eq s hs _, ?_⟩
  intro s hs hstrip
  rw [is_vacant_str_eq s hs, hstrip]
  rfl

/-- Witness for claim C10 at the concrete whitespace-only tenant "   ". -/
theorem whitespace_tenant_not_vacant_witness :
    is_vacant (.vStr "   ") VACANCY_PATTERNS = false :=
  whitespace_tenant_not_vacant.2.2.2 "   " (by decide) (by decide)

/-! ### Claim about the sheet locator -/

/-- Claim C6: `pick_sheet` returns `none` iff no pattern matches any sheet
name (case-insensitively), and otherwise returns the earliest sheet (in
workbook order) matching the earliest pattern (in priority order) that
matches any sheet at all. -/
theorem pick_sheet_spec :
    (∀ (sheetnames patterns : List String),
      (pick_sheet sheetnames patterns = none ↔
        ∀ p ∈ patterns, ∀ s ∈ sheetnames,
          pyContains (pyLower s) (pyLower p) = false))
    ∧ (∀ (ps₁ ps₂ ss₁ ss₂ : List String) (p s : String),
        (∀ q ∈ ps₁, ∀ t ∈ ss₁ ++ s :: ss₂,
          pyContains (pyLower t) (pyLower q) = false) →
        (∀ t ∈ ss₁, pyContains (pyLower t) (pyLower p) = false) →
        pyContains (pyLower s) (pyLower p) = true →
        pick_sheet (ss₁ ++ s :: ss₂) (ps₁ ++ p :: ps₂) = some s) := by
  have hfind : ∀ (ss₁ ss₂ : List String) (s : String) (pat : String),
      (∀ t ∈ ss₁, pyContains (pyLower t) (pyLower pat) = false) →
      pyContains (pyLower s) (pyLower pat) = true →
      (ss₁ ++ s :: ss₂).find?
        (fun t => pyContains (pyLower t) (pyLower pat)) = some s := by
    intro ss₁ ss₂ s pat hmiss hhit
    induction ss₁ with
    | nil => simp [List.find?, hhit]
    | cons t ts ih =>
      have ht : pyContains (pyLower t) (pyLower pat) = false :=
        hmiss t (List.mem_cons_self _ _)
      have hrest : ∀ u ∈ ts, pyContains (pyLower u) (pyLower pat) = false :=
        fun u hu => hmiss u (List.mem_cons_of_mem _ hu)
      simpa [List.find?, ht] using ih hrest
  constructor
  · intro sheetnames patterns
    induction patterns with
    | nil => simp [pick_sheet]
    | cons p ps ih =>
      constructor
      · intro h q hq s hs
        rcases hfq : sheetnames.find?
            (fun t => pyContains (pyLower t) (pyLower p)) with _ | t
        · have h' : pick_sheet sheetnames ps = none := by
            simpa [pick_sheet, hfq] using h
          rcases List.mem_cons.mp hq with rfl | hq'
          · exact Bool.eq_false_iff.mpr (List.find?_eq_none.mp hfq s hs)
          · exact (ih.mp h') q hq' s hs
        · have hsome : pick_sheet sheetnames (p :: ps) = some t := by
            simp [pick_sheet, hfq]
          rw [h] at hsome
          cases hsome
      · intro h
        have hnone : sheetnames.find?
            (fun t => pyContains (pyLower t) (pyLower p)) = none :=
          List.find?_eq_none.mpr fun t ht => by
            simp [h p (List.mem_cons_self _ _) t ht]
        simp only [pick_sheet, hnone]
        exact ih.mpr fun q hq s hs => h q (List.mem_cons_of_mem _ hq) s hs
  · intro ps₁ ps₂ ss₁ ss₂ p s hearlier hmiss hhit
    induction ps₁ with
    | nil =>
      have := hfind ss₁ ss₂ s p hmiss hhit
      simp [pick_sheet, this]
    | cons q qs ih =>
      have hq : (ss₁ ++ s :: ss₂).find?
          (fun t => pyContains (pyLower t) (pyLower q)) = none :=
        List.find?_eq_none.mpr fun t ht => by
          simp [hearlier q (List.mem_cons_self _ _) t ht]
      have htail : ∀ r ∈ qs, ∀ t ∈ ss₁ ++ s :: ss₂,
          pyContains (pyLower t) (pyLower r) = false :=
        fun r hr => hearlier r (List.mem_cons_of_mem _ hr)
      have hstep : pick_sheet (ss₁ ++ s :: ss₂) ((q :: qs) ++ p :: ps₂) =
          pick_sheet (ss₁ ++ s :: ss₂) (qs ++ p :: ps₂) := by
        simp [pick_sheet, hq]
      rw [hstep]
      exact ih htail

/-- Witness for claim C6: with the configured dashboard patterns, the
sheet "Dashboard 2025" is located among distractors, and an unmatched
workbook yields `none`. -/
theorem pick_sheet_spec_witness :
    pick_sheet ["Summary", "Lease Rates", "Dashboard 2025"]
      ["dashboard", "2025", "2026"] = some "Dashboard 2025" :=
  pick_sheet_spec.2 [] ["2025", "2026"] ["Summary", "Lease Rates"] []
    "dashboard" "Dashboard 2025" (by decide) (by decide) (by decide)

/-! ### Decimal rendering of naturals

`f"SUITE_{i+1}"` in the source renders a natural number in decimal; the
placeholder generator below needs an injective rendering, so we define it
explicitly together with its left inverse.
-/

/-- The decimal digit character for `d < 10`. -/
def decChar : Nat → Char
  | 0 => '0' | 1 => '1' | 2 => '2' | 3 => '3' | 4 => '4'
  | 5 => '5' | 6 => '6' | 7 => '7' | 8 => '8' | 9 => '9'
  | _ => '*'

/-- Numeric value of a decimal digit character. -/
def decVal : Char → Nat
  | '0' => 0 | '1' => 1 | '2' => 2 | '3' => 3 | '4' => 4
  | '5' => 5 | '6' => 6 | '7' => 7 | '8' => 8 | '9' => 9
  | _ => 0

/-- Decimal digit characters of a natural number, most significant first. -/
def natDigits (n : Nat) : List Char :=
  if _h : n < 10 then [decChar n]
  else natDigits (n / 10) ++ [decChar (n % 10)]
termination_by n
decreasing_by exact Nat.div_lt_self (by omega) (by omega)

/-- Models Python `str(n)` for a natural number. -/
def natStr (n : Nat) : String :=
  ⟨natDigits n⟩

/-- Reads a digit-character list back to the natural number it denotes. -/
def digitsVal (l : List Char) : Nat :=
  l.foldl (fun a c => 10 * a + decVal c) 0

theorem decVal_decChar (d : Nat) (h : d < 10) : decVal (decChar d) = d := by
  interval_cases d <;> rfl

theorem digitsVal_natDigits (n : Nat) : digitsVal (natDigits n) = n := by
  induction n using Nat.strong_induction_on with
  | _ n ih =>
    rw [natDigits]
    split
    · rename_i h
      simp [digitsVal, List.foldl, decVal_decChar n h]
    · rename_i h
      have hlt : n / 10 < n := Nat.div_lt_self (by omega) (by omega)
      have hmod : n % 10 < 10 := Nat.mod_lt _ (by omega)
      have hrec := ih (n / 10) hlt
      simp only [digitsVal, List.foldl_append, List.foldl] at hrec ⊢
      rw [hrec, decVal_decChar _ hmod]
      omega

theorem natStr_injective : Function.Injective natStr := by
  intro a b h
  have hd : natDigits a = natDigits b := congrArg String.data h
  have := congrArg digitsVal hd
  simpa [digitsVal_natDigits] using this

/-! ### Lease/rate snapshot extractor (`etl/ingest_excel.py` lines 312-422)

The workbook-reading, header-renaming and numeric-coercion steps delegate
to pandas; the embedding starts from the renamed dataframe: each raw row
carries the suite cell, the tenant cell, and the three numeric columns
after `coerce_numeric` (`none` models `NaN`, covering both unparseable
cells and columns that were absent and zero-filled — a zero-filled column
is a row with `some 0`).
-/

structure RawRow where
  suite : PyVal
  tenant : PyVal
  sqft : Option ℚ
  rent_monthly : Option ℚ
  rent_annual : Option ℚ
deriving DecidableEq, Repr

/-- One persisted `SuiteSnapshotFact` row (bronze `raw_lease_rate_snapshot`
shape, audit timestamp omitted: it is wall-clock data nothing checks). -/
structure LeaseRow where
  as_of_month : String
  suite_id : String
  building : Option String
  tenant : PyVal
  sqft : Option ℚ
  rent_monthly : Option ℚ
  rent_annual : Option ℚ
  rent_psf_yr : Option ℚ
  is_vacant : Bool
  is_own_use : Bool
  file_md5 : String
deriving DecidableEq, Repr

/-- Models `fillna("").astype(str)` on the suite cell. -/
def suiteStrOf : PyVal → String
  | .vNone => ""
  | .vNan => ""
  | v => pyStr v

/-- Models the derived rent-per-square-foot (ingest_excel.py lines 377-383):
`rent_annual / sqft` when `sqft > 0`, else `0.0`.  A `NaN` square footage
fails the `> 0` comparison, hence also yields `0.0`; a `NaN` annual rent
with positive footage propagates `NaN`. -/
def psfOf (sqft rent_annual : Option ℚ) : Option ℚ :=
  match sqft with
  | some s =>
    if 0 < s then
      match rent_annual with
      | some a => some (a / s)
      | none => none
    else some 0
  | none => some 0

/-- Builds one output row from a kept (suite id, raw row) pair
(ingest_excel.py lines 367-399). -/
def mkLeaseRow (as_of md5 : String) (sid : String) (r : RawRow) : LeaseRow :=
  { as_of_month := as_of
    suite_id := sid
    building := extract_building (.vStr sid)
    tenant := r.tenant
    sqft := r.sqft
    rent_monthly := r.rent_monthly
    rent_annual := r.rent_annual
    rent_psf_yr := psfOf r.sqft r.rent_annual
    is_vacant := is_vacant r.tenant VACANCY_PATTERNS
    is_own_use := is_own_use (.vStr (pyStr r.tenant)) (.vStr sid) OWN_USE_PATTERNS
    file_md5 := md5 }

/-- Embeds `ingest_lease_rate_snapshot` from the renamed dataframe on:
when the suite column is absent every row gets the generated placeholder
`SUITE_{i+1}` (lines 357-358); the suite column is then null-filled and
stringified and rows whose stripped suite id is empty are dropped
(lines 361-362); each surviving row yields one output row. -/
def ingest_lease_rate_snapshot (hasSuiteCol : Bool) (rows : List RawRow)
    (as_of md5 : String) : List LeaseRow :=
  let withIds : List (String × RawRow) :=
    if hasSuiteCol then rows.map (fun r => (suiteStrOf r.suite, r))
    else rows.enum.map (fun ir => ("SUITE_" ++ natStr (ir.1 + 1), ir.2))
  let kept := withIds.filter (fun p => pyStrip p.1 != "")
  kept.map (fun p => mkLeaseRow as_of md5 p.1 p.2)

/-- Claim C7: in every extracted snapshot row, positive square footage
makes `rent_psf_yr` the exact quotient of `rent_annual` by `sqft`
(stated in exact rational arithmetic, subsuming the floating tolerance),
and zero square footage forces `rent_psf_yr = 0`. -/
theorem rent_psf_yr_correct (hasSuiteCol : Bool) (rows : List RawRow)
    (as_of md5 : String) (r : LeaseRow)
    (hr : r ∈ ingest_lease_rate_snapshot hasSuiteCol rows as_of md5) :
    (∀ s : ℚ, r.sqft = some s → 0 < s →
      r.rent_psf_yr = r.rent_annual.map (fun a => a / s))
    ∧ (r.sqft = some 0 → r.rent_psf_yr = some 0) := by
  simp only [ingest_lease_rate_snapshot] at hr
  obtain ⟨p, hp, rfl⟩ := List.mem_map.mp hr
  constructor
  · intro s hs hpos
    simp only [mkLeaseRow] at hs ⊢
    rw [hs]
    cases p.2.rent_annual <;> simp [psfOf, hs, hpos]
  · intro hs0
    simp only [mkLeaseRow] at hs0 ⊢
    simp [psfOf, hs0]

/-- Witness for claim C7: a suite of 4 sqft at 8 annual rent yields
`rent_psf_yr = 8 / 4`, and a 0-sqft suite yields `0`. -/
theorem rent_psf_yr_correct_witness :
    ((mkLeaseRow "2025-01" "m5" "101A"
        ⟨.vStr "101A", .vStr "ACME", some 4, some 2, some 8⟩).rent_psf_yr
      = ((mkLeaseRow "2025-01" "m5" "101A"
        ⟨.vStr "101A", .vStr "ACME", some 4, some 2, some 8⟩).rent_annual.map
          (fun a => a / 4)))
    ∧ ((mkLeaseRow "2025-01" "m5" "102A"
        ⟨.vStr "102A", .vStr "Void Co", some 0, some 0, some 9⟩).rent_psf_yr
      = some 0) :=
  ⟨(rent_psf_yr_correct true
      [⟨.vStr "101A", .vStr "ACME", some 4, some 2, some 8⟩] "2025-01" "m5" _
      (List.mem_singleton.mpr rfl)).1 4 rfl (by norm_num),
   (rent_psf_yr_correct true
      [⟨.vStr "102A", .vStr "Void Co", some 0, some 0, some 9⟩] "2025-01" "m5" _
      (List.mem_singleton.mpr rfl)).2 rfl⟩

/-- Mapping to pairs, filtering on the first component and projecting it
back is filtering the mapped first components. -/
theorem map_fst_filter_fst {α β γ : Type} (l : List α) (f : α → β) (g : α → γ)
    (p : β → Bool) :
    (((l.map (fun a => (f a, g a))).filter (fun x => p x.1)).map Prod.fst)
      = (l.map f).filter p := by
  induction l with
  | nil => rfl
  | cons a t ih =>
    cases hpa : p (f a) <;> simp [List.filter_cons, hpa, ih]

/-- A generated placeholder suite id never strips to the empty string. -/
theorem pyStrip_suite_placeholder (x : String) :
    (pyStrip ("SUITE_" ++ x) != "") = true := by
  rw [bne_iff_ne]
  intro hcontra
  have hdata : pyStripList (("SUITE_" ++ x).data) = [] :=
    congrArg String.data hcontra
  rw [String.data_append] at hdata
  have hS : pyIsSpace 'S' = false := rfl
  have hdrop : ("SUITE_".data ++ x.data).dropWhile pyIsSpace
      = "SUITE_".data ++ x.data := by
    show List.dropWhile pyIsSpace ('S' :: ("UITE_".data ++ x.data))
      = 'S' :: ("UITE_".data ++ x.data)
    rw [List.dropWhile_cons, hS]
    simp
  unfold pyStripList at hdata
  rw [hdrop] at hdata
  have h2 : (("SUITE_".data ++ x.data).reverse.dropWhile pyIsSpace) = [] := by
    simpa using hdata
  have hmem : 'S' ∈ ("SUITE_".data ++ x.data).reverse := by
    simp [String.data]
  have := (List.dropWhile_eq_nil_iff).mp h2 'S' hmem
  simp [pyIsSpace] at this

/-- The suite ids of an extraction, in order. -/
theorem ingest_lease_suite_ids (hasSuiteCol : Bool) (rows : List RawRow)
    (as_of md5 : String) :
    (ingest_lease_rate_snapshot hasSuiteCol rows as_of md5).map
        (fun r => r.suite_id)
      = ((if hasSuiteCol then rows.map (fun r => (suiteStrOf r.suite, r))
          else rows.enum.map
            (fun ir => ("SUITE_" ++ natStr (ir.1 + 1), ir.2))).filter
          (fun p => pyStrip p.1 != "")).map Prod.fst := by
  simp only [ingest_lease_rate_snapshot, List.map_map]
  rfl

/-- Claim C3 (amended): within one extracted snapshot record set, suite
ids are pairwise distinct provided the stringified non-empty source suite
values are pairwise distinct; when the suite column is absent, the
generated placeholder ids are always pairwise distinct.  (Distinctness
across several record sets written into the same partition is not
enforced by the code.) -/
theorem suite_ids_nodup (rows : List RawRow) (as_of md5 : String)
    (h : ((rows.map (fun r => suiteStrOf r.suite)).filter
        (fun s => pyStrip s != "")).Nodup) :
    ((ingest_lease_rate_snapshot true rows as_of md5).map
        (fun r => r.suite_id)).Nodup
    ∧ ∀ (rows' : List RawRow) (as' md' : String),
        ((ingest_lease_rate_snapshot false rows' as' md').map
          (fun r => r.suite_id)).Nodup := by
  constructor
  · rw [ingest_lease_suite_ids]
    have hm := map_fst_filter_fst rows (fun r => suiteStrOf r.suite)
      (fun r => r) (fun s => pyStrip s != "")
    rw [if_pos rfl, hm]
    exact h
  · intro rows' as' md'
    rw [ingest_lease_suite_ids]
    rw [if_neg Bool.false_ne_true]
    have hmapped := map_fst_filter_fst rows'.enum
      (fun ir : Nat × RawRow => "SUITE_" ++ natStr (ir.1 + 1))
      Prod.snd (fun s => pyStrip s != "")
    rw [hmapped]
    rw [List.filter_eq_self.mpr]
    · have henum : (rows'.enum.map
          (fun ir : Nat × RawRow => "SUITE_" ++ natStr (ir.1 + 1)))
          = (List.range rows'.length).map
              (fun j => "SUITE_" ++ natStr (j + 1)) := by
        rw [← List.enum_map_fst rows', List.map_map]
        rfl
      rw [henum]
      refine List.Nodup.map ?_ (List.nodup_range _)
      intro i j hij
      have hnat : natStr (i + 1) = natStr (j + 1) := by
        have hd := congrArg String.data hij
        rw [String.data_append, String.data_append] at hd
        exact String.ext (List.append_cancel_left hd)
      have := natStr_injective hnat
      omega
    · intro a ha
      obtain ⟨ir, _, rfl⟩ := List.mem_map.mp ha
      exact pyStrip_suite_placeholder _

/-- Witness for claim C3 (amended): two source rows with distinct suite
cells yield distinct suite ids. -/
theorem suite_ids_nodup_witness :
    ((ingest_lease_rate_snapshot true
        [⟨.vStr "101A", .vNone, none, none, none⟩,
         ⟨.vStr "102B", .vStr "ACME", none, none, none⟩] "2025-01" "m5").map
      (fun r => r.suite_id)).Nodup :=
  (suite_ids_nodup
    [⟨.vStr "101A", .vNone, none, none, none⟩,
     ⟨.vStr "102B", .vStr "ACME", none, none, none⟩] "2025-01" "m5"
    (by decide)).1

/-! ### Ingestion driver (`etl/ingest_excel.py` lines 425-519)

`main` is embedded as a state-passing function.  `save_bronze_partition`
writes to the fixed path `{table}_{as_of_month}.parquet` inside the
month partition directory, so a repeated write for the same table and
month overwrites the previous file and a partition holds at most one
record set per table: each partition store maps an `as_of_month` key to
`none` (no partition directory yet) or `some` record set (the single
file the fixed path can hold).  Extraction results are passed in as
`Except` values: `.error` models an exception escaping the corresponding
extractor (or its save), and for the optional expense extractor
`.ok none` models its "no data" result.  Python `raise` after logging is
modelled by returning the updated state together with `.error`;
wall-clock timestamps are omitted. -/

structure DashRow where
  as_of_month : String
  month : String
  rent_base : Option ℚ
  collected : Option ℚ
  uncollected : Option ℚ
  leased_sqft : Option ℚ
  price_per_sf_yr : Option ℚ
  file_md5 : String
deriving DecidableEq, Repr

structure ExpRow where
  as_of_month : String
  month : String
  item : String
  actual : Option ℚ
  expense_category : String
  file_md5 : String
deriving DecidableEq, Repr

inductive IngStatus : Type where
  | success : IngStatus
  | failed : IngStatus
  | skipped : IngStatus
deriving DecidableEq, Repr

/-- One row of the ingestion audit log (utils.py lines 277-312;
timestamps omitted). -/
structure AuditEntry where
  file_md5 : String
  as_of_month : String
  rows_ingested : Nat
  status : IngStatus
deriving DecidableEq, Repr

structure EtlState where
  dash : String → Option (List DashRow)
  exps : String → Option (List ExpRow)
  lease : String → Option (List LeaseRow)
  log : List AuditEntry

def emptyState : EtlState :=
  { dash := fun _ => none, exps := fun _ => none, lease := fun _ => none,
    log := [] }

/-- Embeds `utils.check_already_ingested` (utils.py lines 243-274): a
missing month partition yields `false`; otherwise the partition's single
record file (the fixed per-month path) is read and its `_file_md5`
column is scanned for the digest. -/
def check_already_ingested (file_md5 as_of_month : String)
    (partition : String → Option (List DashRow)) : Bool :=
  match partition as_of_month with
  | none => false
  | some sample => sample.any (fun r => r.file_md5 == file_md5)

/-- Models `save_bronze_partition` (ingest_excel.py lines 425-445) for
the dashboard table: writes the fixed `{table}_{as_of_month}.parquet`
path, overwriting any previous record set for that month. -/
def saveDash (st : EtlState) (as_of : String) (rows : List DashRow) : EtlState :=
  { st with dash := fun m => if m = as_of then some rows else st.dash m }

/-- Models `save_bronze_partition` for the expenses table: same
fixed-path overwrite semantics. -/
def saveExp (st : EtlState) (as_of : String) (rows : List ExpRow) : EtlState :=
  { st with exps := fun m => if m = as_of then some rows else st.exps m }

/-- Models `save_bronze_partition` for the lease/rate table: same
fixed-path overwrite semantics. -/
def saveLease (st : EtlState) (as_of : String) (rows : List LeaseRow) : EtlState :=
  { st with lease := fun m => if m = as_of then some rows else st.lease m }

/-- Models `log_ingestion`: appends one audit row. -/
def appendLog (st : EtlState) (e : AuditEntry) : EtlState :=
  { st with log := st.log ++ [e] }

/-- Embeds `ingest_excel.main` (lines 448-518): duplicate check against
the dashboard partition, then dashboard (required), expenses (optional,
failures swallowed), lease (required), with the audit entry written on
every exit path. -/
def ingest_main (dashF : Except String (List DashRow))
    (expF : Except String (Option (List ExpRow)))
    (leaseF : Except String (List LeaseRow))
    (file_md5 as_of_month : String) (st : EtlState) :
    EtlState × Except String Unit :=
  if check_already_ingested file_md5 as_of_month st.dash then
    (appendLog st ⟨file_md5, as_of_month, 0, .skipped⟩, .ok ())
  else
    match dashF with
    | .error e => (appendLog st ⟨file_md5, as_of_month, 0, .failed⟩, .error e)
    | .ok dRows =>
      let st1 := saveDash st as_of_month dRows
      let afterExp : EtlState × Nat :=
        match expF with
        | .error _ => (st1, dRows.length)
        | .ok none => (st1, dRows.length)
        | .ok (some eRows) =>
          if 0 < eRows.length then
            (saveExp st1 as_of_month eRows, dRows.length + eRows.length)
          else (st1, dRows.length)
      match leaseF with
      | .error e =>
        (appendLog afterExp.1 ⟨file_md5, as_of_month, afterExp.2, .failed⟩,
          .error e)
      | .ok lRows =>
        let st3 := saveLease afterExp.1 as_of_month lRows
        (appendLog st3
          ⟨file_md5, as_of_month, afterExp.2 + lRows.length, .success⟩,
          .ok ())

/-- Claim C2: in a non-duplicate run, any expense-extractor outcome —
including an exception — leaves the dashboard and lease record sets
persisted and the run successful; an exception in the required dashboard
extractor aborts the run with a `failed` audit entry and no lease write,
and an exception in the required lease extractor aborts the run with a
`failed` audit entry, the exception propagating in both cases. -/
theorem extractor_failure_policy
    (dashF : Except String (List DashRow))
    (expF : Except String (Option (List ExpRow)))
    (leaseF : Except String (List LeaseRow))
    (file_md5 as_of_month : String) (st : EtlState)
    (hnew : check_already_ingested file_md5 as_of_month st.dash = false) :
    (∀ dRows lRows, dashF = .ok dRows → leaseF = .ok lRows →
      (ingest_main dashF expF leaseF file_md5 as_of_month st).2 = .ok ()
      ∧ (ingest_main dashF expF leaseF file_md5 as_of_month st).1.dash
          as_of_month = some dRows
      ∧ (ingest_main dashF expF leaseF file_md5 as_of_month st).1.lease
          as_of_month = some lRows)
    ∧ (∀ e, dashF = .error e →
        ingest_main dashF expF leaseF file_md5 as_of_month st
          = (appendLog st ⟨file_md5, as_of_month, 0, .failed⟩, .error e))
    ∧ (∀ dRows e, dashF = .ok dRows → leaseF = .error e →
        (ingest_main dashF expF leaseF file_md5 as_of_month st).2 = .error e
        ∧ ∃ n, (ingest_main dashF expF leaseF file_md5 as_of_month st).1.log
            = st.log ++ [⟨file_md5, as_of_month, n, .failed⟩]) := by
  refine ⟨?_, ?_, ?_⟩
  · rintro dRows lRows rfl rfl
    rcases expF with e | oe
    · simp [ingest_main, hnew, saveDash, saveExp, saveLease, appendLog]
    · rcases oe with _ | eRows
      · simp [ingest_main, hnew, saveDash, saveExp, saveLease, appendLog]
      · by_cases hlen : 0 < eRows.length <;>
          simp [ingest_main, hnew, hlen, saveDash, saveExp, saveLease, appendLog]
  · rintro e rfl
    simp [ingest_main, hnew]
  · rintro dRows e rfl rfl
    rcases expF with e' | oe
    · exact ⟨by simp [ingest_main, hnew], dRows.length,
        by simp [ingest_main, hnew, saveDash, appendLog]⟩
    · rcases oe with _ | eRows
      · exact ⟨by simp [ingest_main, hnew], dRows.length,
          by simp [ingest_main, hnew, saveDash, appendLog]⟩
      · by_cases hlen : 0 < eRows.length
        · exact ⟨by simp [ingest_main, hnew, hlen], dRows.length + eRows.length,
            by simp [ingest_main, hnew, hlen, saveDash, saveExp, appendLog]⟩
        · exact ⟨by simp [ingest_main, hnew, hlen], dRows.length,
            by simp [ingest_main, hnew, hlen, saveDash, appendLog]⟩

/-- Witness for claim C2: a concrete run whose expense extractor raises
still persists the dashboard and lease record sets and succeeds. -/
theorem extractor_failure_policy_witness :
    (ingest_main
        (.ok [⟨"2025-01", "2025-01-01", some 1000, some 900, some 100,
          some 500, some 24, "m5"⟩])
        (.error "boom")
        (.ok [mkLeaseRow "2025-01" "m5" "101A"
          ⟨.vStr "101A", .vNone, none, none, none⟩])
        "m5" "2025-01" emptyState).2 = .ok ()
    ∧ (ingest_main
        (.ok [⟨"2025-01", "2025-01-01", some 1000, some 900, some 100,
          some 500, some 24, "m5"⟩])
        (.error "boom")
        (.ok [mkLeaseRow "2025-01" "m5" "101A"
          ⟨.vStr "101A", .vNone, none, none, none⟩])
        "m5" "2025-01" emptyState).1.dash "2025-01"
      = some [⟨"2025-01", "2025-01-01", some 1000, some 900, some 100,
          some 500, some 24, "m5"⟩]
    ∧ (ingest_main
        (.ok [⟨"2025-01", "2025-01-01", some 1000, some 900, some 100,
          some 500, some 24, "m5"⟩])
        (.error "boom")
        (.ok [mkLeaseRow "2025-01" "m5" "101A"
          ⟨.vStr "101A", .vNone, none, none, none⟩])
        "m5" "2025-01" emptyState).1.lease "2025-01"
      = some [mkLeaseRow "2025-01" "m5" "101A"
          ⟨.vStr "101A", .vNone, none, none, none⟩] :=
  (extractor_failure_policy
    (.ok [⟨"2025-01", "2025-01-01", some 1000, some 900, some 100,
      some 500, some 24, "m5"⟩])
    (.error "boom")
    (.ok [mkLeaseRow "2025-01" "m5" "101A"
      ⟨.vStr "101A", .vNone, none, none, none⟩])
    "m5" "2025-01" emptyState rfl).1
    [⟨"2025-01", "2025-01-01", some 1000, some 900, some 100,
      some 500, some 24, "m5"⟩]
    [mkLeaseRow "2025-01" "m5" "101A"
      ⟨.vStr "101A", .vNone, none, none, none⟩] rfl rfl

/-- On a detected duplicate, `ingest_main` only appends the `skipped`
audit entry: no extraction result is consulted and no partition changes. -/
theorem ingest_main_skip (dashF : Except String (List DashRow))
    (expF : Except String (Option (List ExpRow)))
    (leaseF : Except String (List LeaseRow))
    (file_md5 as_of_month : String) (st : EtlState)
    (h : check_already_ingested file_md5 as_of_month st.dash = true) :
    ingest_main dashF expF leaseF file_md5 as_of_month st
      = (appendLog st ⟨file_md5, as_of_month, 0, .skipped⟩, .ok ()) := by
  unfold ingest_main
  rw [if_pos h]

/-- Claim C1 (amended): if the first run actually ingested (was not
itself skipped as a duplicate), finished successfully, and its dashboard
extraction persisted at least one record stamped with the file digest,
then a second run with the same digest and detected month is recognized
as a duplicate: no extractor result is consulted, no partition is
touched, and exactly one `skipped` audit entry is appended — so the
single set of partition records written by the first run (a table's
month partition holds at most one record set, the fixed per-month file)
is still the only one. -/
theorem ingest_idempotent
    (dashF : Except String (List DashRow))
    (expF : Except String (Option (List ExpRow)))
    (leaseF : Except String (List LeaseRow))
    (file_md5 as_of_month : String) (st : EtlState) (dRows : List DashRow)
    (hdash : dashF = .ok dRows) (hne : dRows ≠ [])
    (hstamp : ∀ r ∈ dRows, r.file_md5 = file_md5)
    (hnew : check_already_ingested file_md5 as_of_month st.dash = false)
    (hok : (ingest_main dashF expF leaseF file_md5 as_of_month st).2 = .ok ()) :
    check_already_ingested file_md5 as_of_month
        (ingest_main dashF expF leaseF file_md5 as_of_month st).1.dash = true
    ∧ (∀ (dashF2 : Except String (List DashRow))
        (expF2 : Except String (Option (List ExpRow)))
        (leaseF2 : Except String (List LeaseRow)),
        ingest_main dashF2 expF2 leaseF2 file_md5 as_of_month
            (ingest_main dashF expF leaseF file_md5 as_of_month st).1
          = (appendLog (ingest_main dashF expF leaseF file_md5 as_of_month st).1
              ⟨file_md5, as_of_month, 0, .skipped⟩, .ok ()))
    ∧ (ingest_main dashF expF leaseF file_md5 as_of_month st).1.dash
        as_of_month = some dRows
    ∧ ∃ lRows, (ingest_main dashF expF leaseF file_md5 as_of_month st).1.lease
        as_of_month = some lRows := by
  subst hdash
  rcases hfl : leaseF with e | lRows
  · exfalso
    rw [hfl] at hok
    rcases expF with e' | oe
    · simp [ingest_main, hnew] at hok
    · rcases oe with _ | eRows
      · simp [ingest_main, hnew] at hok
      · by_cases hlen : 0 < eRows.length <;>
          simp [ingest_main, hnew, hlen] at hok
  · subst hfl
    have hdashpart : (ingest_main (.ok dRows) expF (.ok lRows) file_md5
        as_of_month st).1.dash as_of_month = some dRows := by
      rcases expF with e' | oe
      · simp [ingest_main, hnew, saveDash, saveExp, saveLease, appendLog]
      · rcases oe with _ | eRows
        · simp [ingest_main, hnew, saveDash, saveExp, saveLease, appendLog]
        · by_cases hlen : 0 < eRows.length <;>
            simp [ingest_main, hnew, hlen, saveDash, saveExp, saveLease,
              appendLog]
    have hleasepart : (ingest_main (.ok dRows) expF (.ok lRows) file_md5
        as_of_month st).1.lease as_of_month = some lRows := by
      rcases expF with e' | oe
      · simp [ingest_main, hnew, saveDash, saveExp, saveLease, appendLog]
      · rcases oe with _ | eRows
        · simp [ingest_main, hnew, saveDash, saveExp, saveLease, appendLog]
        · by_cases hlen : 0 < eRows.length <;>
            simp [ingest_main, hnew, hlen, saveDash, saveExp, saveLease,
              appendLog]
    have hchk : check_already_ingested file_md5 as_of_month
        (ingest_main (.ok dRows) expF (.ok lRows) file_md5 as_of_month
          st).1.dash = true := by
      obtain ⟨r0, hr0⟩ : ∃ r0, r0 ∈ dRows := by
        cases dRows with
        | nil => exact absurd rfl hne
        | cons a t => exact ⟨a, List.mem_cons_self a t⟩
      simp only [check_already_ingested, hdashpart]
      exact List.any_eq_true.mpr ⟨r0, hr0, beq_iff_eq.mpr (hstamp r0 hr0)⟩
    refine ⟨hchk, ?_, hdashpart, ⟨lRows, hleasepart⟩⟩
    intro dashF2 expF2 leaseF2
    exact ingest_main_skip dashF2 expF2 leaseF2 file_md5 as_of_month _ hchk

/-- Witness for claim C1 (amended): a concrete first run from an empty
store, then a duplicate-detected second run that only logs `skipped`. -/
theorem ingest_idempotent_witness :
    check_already_ingested "m5" "2025-01"
        (ingest_main
          (.ok [⟨"2025-01", "2025-01-01", some 1000, some 900, some 100,
            some 500, some 24, "m5"⟩])
          (.ok none)
          (.ok [mkLeaseRow "2025-01" "m5" "101A"
            ⟨.vStr "101A", .vNone, none, none, none⟩])
          "m5" "2025-01" emptyState).1.dash = true
    ∧ ingest_main (.error "x") (.ok none) (.error "y") "m5" "2025-01"
        (ingest_main
          (.ok [⟨"2025-01", "2025-01-01", some 1000, some 900, some 100,
            some 500, some 24, "m5"⟩])
          (.ok none)
          (.ok [mkLeaseRow "2025-01" "m5" "101A"
            ⟨.vStr "101A", .vNone, none, none, none⟩])
          "m5" "2025-01" emptyState).1
      = (appendLog
          (ingest_main
            (.ok [⟨"2025-01", "2025-01-01", some 1000, some 900, some 100,
              some 500, some 24, "m5"⟩])
            (.ok none)
            (.ok [mkLeaseRow "2025-01" "m5" "101A"
              ⟨.vStr "101A", .vNone, none, none, none⟩])
            "m5" "2025-01" emptyState).1
          ⟨"m5", "2025-01", 0, .skipped⟩, .ok ())
    ∧ (ingest_main
        (.ok [⟨"2025-01", "2025-01-01", some 1000, some 900, some 100,
          some 500, some 24, "m5"⟩])
        (.ok none)
        (.ok [mkLeaseRow "2025-01" "m5" "101A"
          ⟨.vStr "101A", .vNone, none, none, none⟩])
        "m5" "2025-01" emptyState).1.dash "2025-01"
      = some [⟨"2025-01", "2025-01-01", some 1000, some 900, some 100,
          some 500, some 24, "m5"⟩] :=
  have h := ingest_idempotent
    (.ok [⟨"2025-01", "2025-01-01", some 1000, some 900, some 100,
      some 500, some 24, "m5"⟩])
    (.ok none)
    (.ok [mkLeaseRow "2025-01" "m5" "101A"
      ⟨.vStr "101A", .vNone, none, none, none⟩])
    "m5" "2025-01" emptyState
    [⟨"2025-01", "2025-01-01", some 1000, some 900, some 100,
      some 500, some 24, "m5"⟩]
    rfl (List.cons_ne_nil _ _) (by decide) rfl rfl
  ⟨h.1, h.2.1 (.error "x") (.ok none) (.error "y"), h.2.2.1⟩

/-- Counterexample to claim C1 as stated: when the first run's dashboard
extraction succeeds with zero rows (for example, month labels the month
map does not recognize), the persisted dashboard file carries no
`_file_md5` values, so a byte-identical second run with the same digest
and month is NOT detected via the digest: instead of short-circuiting,
it runs the extractors again, re-writes the partition files in place,
and appends a `success` — not `skipped` — audit entry. -/
theorem ingest_idempotent_counterexample :
    (ingest_main (.ok []) (.ok none)
        (.ok [mkLeaseRow "2025-01" "m5" "101A"
          ⟨.vStr "101A", .vNone, none, none, none⟩])
        "m5" "2025-01" emptyState).2 = .ok ()
    ∧ check_already_ingested "m5" "2025-01"
        (ingest_main (.ok []) (.ok none)
          (.ok [mkLeaseRow "2025-01" "m5" "101A"
            ⟨.vStr "101A", .vNone, none, none, none⟩])
          "m5" "2025-01" emptyState).1.dash = false
    ∧ (ingest_main (.ok []) (.ok none)
        (.ok [mkLeaseRow "2025-01" "m5" "101A"
          ⟨.vStr "101A", .vNone, none, none, none⟩])
        "m5" "2025-01"
        (ingest_main (.ok []) (.ok none)
          (.ok [mkLeaseRow "2025-01" "m5" "101A"
            ⟨.vStr "101A", .vNone, none, none, none⟩])
          "m5" "2025-01" emptyState).1).1.log
      = (ingest_main (.ok []) (.ok none)
          (.ok [mkLeaseRow "2025-01" "m5" "101A"
            ⟨.vStr "101A", .vNone, none, none, none⟩])
          "m5" "2025-01" emptyState).1.log
        ++ [⟨"m5", "2025-01", 1, .success⟩] :=
  ⟨rfl, rfl, rfl⟩

/-- Counterexample to claim C3 as stated: two source rows carrying the
same suite cell pass through extraction unchanged and are persisted in
one partition write with equal `suite_id` values — nothing deduplicates
them. -/
theorem suite_ids_nodup_counterexample :
    (ingest_main
        (.ok [⟨"2025-01", "2025-01-01", some 1000, some 900, some 100,
          some 500, some 24, "m5"⟩])
        (.ok none)
        (.ok (ingest_lease_rate_snapshot true
          [⟨.vStr "101A", .vStr "ACME", none, none, none⟩,
           ⟨.vStr "101A", .vStr "Beta LLC", none, none, none⟩]
          "2025-01" "m5"))
        "m5" "2025-01" emptyState).1.lease "2025-01"
      = some (ingest_lease_rate_snapshot true
          [⟨.vStr "101A", .vStr "ACME", none, none, none⟩,
           ⟨.vStr "101A", .vStr "Beta LLC", none, none, none⟩]
          "2025-01" "m5")
    ∧ ((ingest_lease_rate_snapshot true
          [⟨.vStr "101A", .vStr "ACME", none, none, none⟩,
           ⟨.vStr "101A", .vStr "Beta LLC", none, none, none⟩]
          "2025-01" "m5").map (fun r => r.suite_id)) = ["101A", "101A"]
    ∧ ¬ ((ingest_lease_rate_snapshot true
          [⟨.vStr "101A", .vStr "ACME", none, none, none⟩,
           ⟨.vStr "101A", .vStr "Beta LLC", none, none, none⟩]
          "2025-01" "m5").map (fun r => r.suite_id)).Nodup :=
  ⟨rfl, rfl, by decide⟩

/-! ### Schema value checks (`etl/quality.py`)

The Pandera schemas' value constraints become decidable row predicates;
column presence, dtype and nullability are carried by the Lean row types
themselves. -/

/-- A `Check.ge(0)` on a nullable float column: null passes, a value must
be non-negative. -/
def geZeroOrNull : Option ℚ → Bool
  | none => true
  | some q => decide (0 ≤ q)

/-- Embeds the value checks of `schema_dashboard_monthly` (quality.py
lines 13-27): `rent_base`, `collected`, `leased_sqft`, `price_per_sf_yr`
are `Check.ge(0)` nullable; `uncollected` is nullable with no check. -/
def dashRowValid (r : DashRow) : Bool :=
  geZeroOrNull r.rent_base && geZeroOrNull r.collected
    && geZeroOrNull r.leased_sqft && geZeroOrNull r.price_per_sf_yr

/-- Embeds the value checks of `schema_lease_rate` (quality.py lines
47-64): `building` is `isin(["A","B"])` nullable; the four numeric
columns are `Check.ge(0)` nullable. -/
def leaseRowValid (r : LeaseRow) : Bool :=
  (match r.building with
    | none => true
    | some b => b == "A" || b == "B")
  && geZeroOrNull r.sqft && geZeroOrNull r.rent_monthly
    && geZeroOrNull r.rent_annual && geZeroOrNull r.rent_psf_yr

theorem geZeroOrNull_char (v : Option ℚ) (h : geZeroOrNull v = true) :
    v = none ∨ ∃ q, v = some q ∧ 0 ≤ q := by
  cases v with
  | none => exact Or.inl rfl
  | some q =>
    refine Or.inr ⟨q, rfl, ?_⟩
    simpa [geZeroOrNull] using h

/-- Counterexample to claim C4 as stated: a lease sheet whose monthly
rent cell holds −50 flows through extraction and the ingestion driver
into the partition store unchanged — the schema check that would flag it
runs only after persistence and deletes nothing — so a persisted
SuiteSnapshotFact row carries a negative `rent_monthly`. -/
theorem nonneg_counterexample :
    (ingest_main
        (.ok [⟨"2025-01", "2025-01-01", some 1000, some 900, some 100,
          some 500, some 24, "m5"⟩])
        (.ok none)
        (.ok (ingest_lease_rate_snapshot true
          [⟨.vStr "201A", .vStr "ACME", some 0, some (-50), some (-600)⟩]
          "2025-01" "m5"))
        "m5" "2025-01" emptyState).2 = .ok ()
    ∧ (ingest_main
        (.ok [⟨"2025-01", "2025-01-01", some 1000, some 900, some 100,
          some 500, some 24, "m5"⟩])
        (.ok none)
        (.ok (ingest_lease_rate_snapshot true
          [⟨.vStr "201A", .vStr "ACME", some 0, some (-50), some (-600)⟩]
          "2025-01" "m5"))
        "m5" "2025-01" emptyState).1.lease "2025-01"
      = some (ingest_lease_rate_snapshot true
          [⟨.vStr "201A", .vStr "ACME", some 0, some (-50), some (-600)⟩]
          "2025-01" "m5")
    ∧ ingest_lease_rate_snapshot true
        [⟨.vStr "201A", .vStr "ACME", some 0, some (-50), some (-600)⟩]
        "2025-01" "m5"
      = [mkLeaseRow "2025-01" "m5" "201A"
          ⟨.vStr "201A", .vStr "ACME", some 0, some (-50), some (-600)⟩]
    ∧ (mkLeaseRow "2025-01" "m5" "201A"
        ⟨.vStr "201A", .vStr "ACME", some 0, some (-50), some (-600)⟩).rent_monthly
      = some (-50)
    ∧ leaseRowValid (mkLeaseRow "2025-01" "m5" "201A"
        ⟨.vStr "201A", .vStr "ACME", some 0, some (-50), some (-600)⟩)
      = false :=
  ⟨rfl, rfl, rfl, rfl, by decide⟩

/-- Claim C4 (amended): every row accepted by the declared schema checks
has all its currency/area fields null or non-negative — `uncollected` is
the sole dashboard field the schema leaves sign-unconstrained, and a row
with negative `uncollected` does validate.  (Rows are persisted before
validation, so a persisted row that was never validated may violate
this; see the counterexample.) -/
theorem schema_nonneg (r : DashRow) (r2 : LeaseRow)
    (h : dashRowValid r = true) (h2 : leaseRowValid r2 = true) :
    ((r.rent_base = none ∨ ∃ q, r.rent_base = some q ∧ 0 ≤ q)
      ∧ (r.collected = none ∨ ∃ q, r.collected = some q ∧ 0 ≤ q)
      ∧ (r.leased_sqft = none ∨ ∃ q, r.leased_sqft = some q ∧ 0 ≤ q)
      ∧ (r.price_per_sf_yr = none ∨ ∃ q, r.price_per_sf_yr = some q ∧ 0 ≤ q))
    ∧ ((r2.sqft = none ∨ ∃ q, r2.sqft = some q ∧ 0 ≤ q)
      ∧ (r2.rent_monthly = none ∨ ∃ q, r2.rent_monthly = some q ∧ 0 ≤ q)
      ∧ (r2.rent_annual = none ∨ ∃ q, r2.rent_annual = some q ∧ 0 ≤ q)
      ∧ (r2.rent_psf_yr = none ∨ ∃ q, r2.rent_psf_yr = some q ∧ 0 ≤ q))
    ∧ ∃ r3 : DashRow, dashRowValid r3 = true ∧ r3.uncollected = some (-1) := by
  simp only [dashRowValid, Bool.and_eq_true] at h
  simp only [leaseRowValid, Bool.and_eq_true] at h2
  obtain ⟨⟨⟨hrb, hco⟩, hls⟩, hpp⟩ := h
  obtain ⟨⟨⟨⟨_, hsq⟩, hrm⟩, hra⟩, hrp⟩ := h2
  refine ⟨⟨geZeroOrNull_char _ hrb, geZeroOrNull_char _ hco,
      geZeroOrNull_char _ hls, geZeroOrNull_char _ hpp⟩,
    ⟨geZeroOrNull_char _ hsq, geZeroOrNull_char _ hrm,
      geZeroOrNull_char _ hra, geZeroOrNull_char _ hrp⟩,
    ⟨⟨"2025-01", "2025-01-01", some 0, some 0, some (-1), some 0, some 0,
      "m5"⟩, by decide, rfl⟩⟩

/-- Witness for claim C4 (amended) at concrete validated rows. -/
theorem schema_nonneg_witness :
    (((⟨"2025-01", "2025-01-01", some 1000, some 900, some 100, some 500,
        some 24, "m5"⟩ : DashRow).rent_base = none
      ∨ ∃ q, (⟨"2025-01", "2025-01-01", some 1000, some 900, some 100,
        some 500, some 24, "m5"⟩ : DashRow).rent_base = some q ∧ 0 ≤ q))
    ∧ ∃ r3 : DashRow, dashRowValid r3 = true ∧ r3.uncollected = some (-1) :=
  have h := schema_nonneg
    ⟨"2025-01", "2025-01-01", some 1000, some 900, some 100, some 500,
      some 24, "m5"⟩
    (mkLeaseRow "2025-01" "m5" "101A" ⟨.vStr "101A", .vNone, none, none, none⟩)
    (by decide) (by decide)
  ⟨h.1.1, h.2.2⟩

/-! ### Period detector (`etl/utils.py` lines 172-240)

The workbook is modelled as an ordered list of named sheets of cell
grids.  `pd.to_datetime(..., errors="coerce")` followed by
`strftime("%Y-%m")` is an external library call; it enters the embedding
as the parameter `parseYM`, returning the formatted `YYYY-MM` string on
success.  The current system month enters as the parameter `now`. -/

inductive Cell : Type where
  | empty : Cell
  | str : String → Cell
  | date : String → Cell
  | num : ℚ → Cell
deriving DecidableEq, Repr

/-- Sheet of a workbook: a name and a row-major cell grid. -/
structure Sheet where
  name : String
  grid : List (List Cell)

/-- Models cell truthiness (`if cell.value ...` / `if adjacent:`). -/
def cellTruthy : Cell → Bool
  | .empty => false
  | .str s => s != ""
  | .date _ => true
  | .num q => q != 0

/-- Models `pd.isna` on a cell (an empty cell reads as `NaN`). -/
def cellIsNa : Cell → Bool
  | .empty => true
  | _ => false

/-- A header cell pandas would name `month` after `str(c).lower()`:
extensionally, a string cell lowercasing to "month" (empty, numeric and
date headers stringify to other names). -/
def isMonthHeader : Cell → Bool
  | .str s => pyLower s == "month"
  | _ => false

/-- Strategy 1 (utils.py lines 193-207): read the dashboard sheet with
header row 29 (0-based index 28), locate the first column whose name
lowercases to "month", drop nulls, and parse the first remaining value;
any failure along the way (missing sheet, short sheet, no such column,
empty column, unparseable value) falls through as `none`. -/
def detectFromMonthColumn (parseYM : Cell → Option String) (wb : List Sheet)
    (dashboard_sheet : Option String) : Option String :=
  match dashboard_sheet with
  | none => none
  | some nm =>
    match wb.find? (fun sh => sh.name == nm) with
    | none => none
    | some sh =>
      match sh.grid.drop 28 with
      | [] => none
      | header :: body =>
        match header.findIdx? isMonthHeader with
        | none => none
        | some j =>
          match ((body.map (fun row => row.getD j Cell.empty)).filter
              (fun c => !cellIsNa c)).head? with
          | none => none
          | some c => parseYM c

/-- Strategy 2, inner scan of one row (utils.py lines 213-226): at each
truthy string cell containing "period" case-insensitively, try to parse
the cell 1 to its right, then the cell 2 to its right; first success
wins, scanning cells left to right. -/
def scanPeriodRow (parseYM : Cell → Option String) (row : List Cell) :
    Option String :=
  row.enum.findSome? (fun ic =>
    match ic.2 with
    | .str s =>
      if s != "" && pyContains (pyLower s) "period" then
        match (if cellTruthy (row.getD (ic.1 + 1) .empty)
            then parseYM (row.getD (ic.1 + 1) .empty) else none) with
        | some m => some m
        | none =>
          if cellTruthy (row.getD (ic.1 + 2) .empty)
          then parseYM (row.getD (ic.1 + 2) .empty) else none
      else none
    | _ => none)

/-- Strategy 2 (utils.py lines 210-226): scan the first 50 rows of every
sheet, in workbook order, for a "period" label with a parseable date to
its right. -/
def detectFromPeriodCell (parseYM : Cell → Option String) (wb : List Sheet) :
    Option String :=
  wb.findSome? (fun sh => (sh.grid.take 50).findSome? (scanPeriodRow parseYM))

def isDigitCh (c : Char) : Bool :=
  '0' ≤ c && c ≤ '9'

/-- One anchored attempt of the regex `(20\d\d)[-_](\d\d)`. -/
def matchYMAt : List Char → Option String
  | '2' :: '0' :: a :: b :: sep :: c :: d :: _ =>
    if isDigitCh a && isDigitCh b && (sep == '-' || sep == '_')
        && isDigitCh c && isDigitCh d then
      some (String.mk ['2', '0', a, b] ++ "-" ++ String.mk [c, d])
    else none
  | _ => none

/-- `re.search`: the leftmost position where the pattern matches. -/
def searchYM : List Char → Option String
  | [] => none
  | c :: t =>
    match matchYMAt (c :: t) with
    | some r => some r
    | none => searchYM t

/-- Strategy 3 (utils.py lines 229-235): regex over the filename stem,
rebuilt as `"{year}-{month}"`. -/
def detectFromFilename (stem : String) : Option String :=
  searchYM stem.data

/-- Embeds `utils.detect_as_of_month` (lines 172-240): the three
strategies in priority order with the current-month fallback; being a
total function, it never raises. -/
def detect_as_of_month (parseYM : Cell → Option String) (wb : List Sheet)
    (dashboard_sheet : Option String) (stem : String) (now : String) :
    String :=
  match detectFromMonthColumn parseYM wb dashboard_sheet with
  | some m => m
  | none =>
    match detectFromPeriodCell parseYM wb with
    | some m => m
    | none =>
      match detectFromFilename stem with
      | some m => m
      | none => now

/-- Claim C5: the period detector tries, in order: the dashboard sheet's
month column (first non-null value), a "period" cell scan over the first
50 rows of every sheet (1st then 2nd cell to its right), and a
`20\d\d[-_]\d\d` match in the filename; the first success wins, and when
all three fail it returns the current system month instead of raising. -/
theorem detect_as_of_month_spec (parseYM : Cell → Option String)
    (wb : List Sheet) (dashboard_sheet : Option String)
    (stem : String) (now : String) :
    (∀ m, detectFromMonthColumn parseYM wb dashboard_sheet = some m →
      detect_as_of_month parseYM wb dashboard_sheet stem now = m)
    ∧ (detectFromMonthColumn parseYM wb dashboard_sheet = none →
      ∀ m, detectFromPeriodCell parseYM wb = some m →
        detect_as_of_month parseYM wb dashboard_sheet stem now = m)
    ∧ (detectFromMonthColumn parseYM wb dashboard_sheet = none →
      detectFromPeriodCell parseYM wb = none →
      ∀ m, detectFromFilename stem = some m →
        detect_as_of_month parseYM wb dashboard_sheet stem now = m)
    ∧ (detectFromMonthColumn parseYM wb dashboard_sheet = none →
      detectFromPeriodCell parseYM wb = none →
      detectFromFilename stem = none →
        detect_as_of_month parseYM wb dashboard_sheet stem now = now) := by
  refine ⟨?_, ?_, ?_, ?_⟩ <;> intros <;> simp [detect_as_of_month, *]

/-- Witness for claim C5: with no month column and no period cell, the
filename stem "TCO_2025-03" determines the period; with nothing at all,
the current month is returned. -/
theorem detect_as_of_month_spec_witness :
    detect_as_of_month
        (fun c => match c with | .date d => some d | _ => none)
        [⟨"Sheet1", [[.str "hello"]]⟩] none "TCO_2025-03" "2099-12"
      = "2025-03"
    ∧ detect_as_of_month
        (fun c => match c with | .date d => some d | _ => none)
        [⟨"Sheet1", [[.str "hello"]]⟩] none "notes" "2099-12"
      = "2099-12" :=
  ⟨(detect_as_of_month_spec
      (fun c => match c with | .date d => some d | _ => none)
      [⟨"Sheet1", [[.str "hello"]]⟩] none "TCO_2025-03" "2099-12").2.2.1
    rfl rfl "2025-03" rfl,
   (detect_as_of_month_spec
      (fun c => match c with | .date d => some d | _ => none)
      [⟨"Sheet1", [[.str "hello"]]⟩] none "notes" "2099-12").2.2.2
    rfl rfl rfl⟩
